import Mathlib

/-!
Shallow embedding of the BOSS ticketing backend (Flask/SQLAlchemy sources under
`src/`).  Pure functions are translated directly; route handlers become pure
functions over an explicit database value.  Each handler commits to the store
exactly once, at its end (`db.session.commit()`); every error path returns
before that single commit and the request-scoped session is rolled back, so a
handler is embedded as a pure core computing `Except ApiErr result` plus a
commit step that produces the new store only in the `ok` case.

Organizations are the source strings: "BOSS" is the internal organization and
"Oldendorff" the external one.  Statuses, priorities and ticket types are the
source strings as well.  Timestamps (`datetime.utcnow()` values) are modelled
as a calendar date plus seconds-of-day; the comparison key is strictly
monotone for in-range dates.  HTTP error responses are modelled as a pair of
status code and message.
-/

set_option maxRecDepth 4000

/-- HTTP-level error outcome: status code and message, as produced by the
`jsonify({error: msg}), code` returns of the route handlers. -/
abbrev ApiErr := Nat × String


-- Decidable equality for `Except` results, used to evaluate handler
-- outcomes on concrete inputs.
deriving instance DecidableEq for Except

/-- Kernel-computable splitter on a single separator character, standing in
for the Python `str.split` used on MIME types and dates. -/
def splitOnCharAux (c : Char) : List Char → List Char → List String
  | [], acc => [String.mk acc.reverse]
  | x :: xs, acc =>
    if x == c then String.mk acc.reverse :: splitOnCharAux c xs []
    else splitOnCharAux c xs (x :: acc)

/-- Split a string on a separator character. -/
def splitOnChar (s : String) (c : Char) : List String :=
  splitOnCharAux c s.data []

/-- Whitespace test of `str.strip`. -/
def isPySpace (c : Char) : Bool :=
  c == ' ' || c == '\t' || c == '\n' || c == '\r'

/-- Kernel-computable model of the Python `str.strip()` applied to incoming
text fields. -/
def pyStrip (s : String) : String :=
  String.mk ((((s.data.dropWhile isPySpace).reverse).dropWhile isPySpace).reverse)

/-- Calendar date (proleptic Gregorian), used for `timeline_date` and for the
date part of timestamps. -/
structure Date where
  y : Nat
  m : Nat
  d : Nat
deriving DecidableEq, Repr

/-- Timestamp: calendar date plus seconds within the day.  Models a Python
`datetime` to second precision. -/
structure DateTime where
  date : Date
  sec : Nat
deriving DecidableEq, Repr

/-- Gregorian leap-year test. -/
def isLeap (y : Nat) : Bool :=
  (y % 4 == 0 && y % 100 != 0) || y % 400 == 0

/-- Number of days in a month. -/
def daysInMonth (y m : Nat) : Nat :=
  if m == 2 then (if isLeap y then 29 else 28)
  else if m == 4 || m == 6 || m == 9 || m == 11 then 30
  else 31

/-- Previous calendar day. -/
def Date.pred (dt : Date) : Date :=
  if dt.d > 1 then { dt with d := dt.d - 1 }
  else if dt.m > 1 then { y := dt.y, m := dt.m - 1, d := daysInMonth dt.y (dt.m - 1) }
  else { y := dt.y - 1, m := 12, d := 31 }

/-- Subtract `n` days from a date (models `datetime - timedelta(days=n)` on
the date component). -/
def Date.subDays (dt : Date) : Nat → Date
  | 0 => dt
  | n + 1 => (Date.subDays dt n).pred

/-- Strictly monotone key for comparing in-range timestamps
(month 1-12, day 1-31, sec below 86400). -/
def DateTime.key (dt : DateTime) : Nat :=
  ((dt.date.y * 16 + dt.date.m) * 32 + dt.date.d) * 86400 + dt.sec

/-- Two-digit zero padding, as in `strftime` numeric fields. -/
def pad2 (n : Nat) : String :=
  if n < 10 then "0" ++ toString n else toString n

/-- Month label in the `%Y-%m` format of `strftime` used by the trends
endpoint. -/
def monthLabel (d : Date) : String :=
  toString d.y ++ "-" ++ pad2 d.m

/-- Parse of a `YYYY-MM-DD` string, modelling
`datetime.strptime(value, %Y-%m-%d).date()` from the standard library
(a collaborator of the core): three dash-separated numeric components with a
calendar-valid month and day; anything else fails. -/
def strptime_date (s : String) : Option Date :=
  match (splitOnChar s '-').map String.toNat? with
  | [some y, some m, some d] =>
    if 1 ≤ m && m ≤ 12 && 1 ≤ d && d ≤ daysInMonth y m then some ⟨y, m, d⟩ else none
  | _ => none

/-- User row (`src/src/models/user.py`).  The password hash is a collaborator
concern and is not carried; password checks are passed in as a boolean. -/
structure User where
  id : Nat
  name : String
  email : String
  role : String
  organization : String
  is_active : Bool
deriving DecidableEq, Repr

/-- Category row (`src/src/models/category.py`). -/
structure Category where
  id : Nat
  name : String
  description : Option String
  is_active : Bool
deriving DecidableEq, Repr

/-- Ticket row (`src/src/models/ticket.py`). -/
structure Ticket where
  id : Nat
  title : String
  description : String
  category_id : Nat
  ticket_type : String
  priority : String
  status : String
  creator_id : Nat
  timeline_date : Option Date
  progress : Int
  created_at : DateTime
  updated_at : DateTime
deriving DecidableEq, Repr

/-- Comment row (`src/src/models/comment.py`). -/
structure Comment where
  id : Nat
  ticket_id : Nat
  user_id : Nat
  content : String
  created_at : DateTime
deriving DecidableEq, Repr

/-- File row (`src/src/models/file.py`); filename/path columns are storage
plumbing outside the core and are not carried. -/
structure DbFile where
  id : Nat
  ticket_id : Nat
  file_size : Nat
  mime_type : String
  uploaded_by : Nat
  uploaded_at : DateTime
deriving DecidableEq, Repr

/-- The relational store: one list per table. -/
structure DB where
  users : List User
  categories : List Category
  tickets : List Ticket
  comments : List Comment
  files : List DbFile
deriving DecidableEq, Repr

/-- `User.query.get(uid)`. -/
def DB.findUser (db : DB) (uid : Nat) : Option User :=
  db.users.find? (fun u => u.id == uid)

/-- `Category.query.get(cid)`. -/
def DB.findCategory (db : DB) (cid : Nat) : Option Category :=
  db.categories.find? (fun c => c.id == cid)

/-- `Ticket.query.get(tid)`. -/
def DB.findTicket (db : DB) (tid : Nat) : Option Ticket :=
  db.tickets.find? (fun t => t.id == tid)

/-- `Comment.query.get(cid)`. -/
def DB.findComment (db : DB) (cid : Nat) : Option Comment :=
  db.comments.find? (fun c => c.id == cid)

/-- Write back a ticket row by primary key (the ORM flush of a mutated
`Ticket` object at commit). -/
def DB.setTicket (db : DB) (t : Ticket) : DB :=
  { db with tickets := db.tickets.map (fun x => if x.id == t.id then t else x) }

/-- Write back a category row by primary key. -/
def DB.setCategory (db : DB) (c : Category) : DB :=
  { db with categories := db.categories.map (fun x => if x.id == c.id then c else x) }

/-- Remove a comment row by primary key (`db.session.delete(comment)`). -/
def DB.removeComment (db : DB) (cid : Nat) : DB :=
  { db with comments := db.comments.filter (fun c => c.id != cid) }

/-- Validator `validate_ticket_type` from `src/src/utils/validators.py`. -/
def validate_ticket_type (ticket_type : String) : Except String Unit :=
  if ticket_type == "Enhancement" || ticket_type == "Issue" then .ok ()
  else .error "Invalid ticket type. Must be one of: Enhancement, Issue"

/-- Validator `validate_priority(priority, ticket_type=None)` from
`src/src/utils/validators.py`: global whitelist first, then the
Top Urgent/Enhancement exclusion. -/
def validate_priority (priority : String) (ticket_type : Option String) : Except String Unit :=
  if !(priority == "Top Urgent" || priority == "High" || priority == "Medium" || priority == "Low") then
    .error "Invalid priority. Must be one of: Top Urgent, High, Medium, Low"
  else if priority == "Top Urgent" && ticket_type == some "Enhancement" then
    .error "Enhancement tickets cannot have Top Urgent priority"
  else .ok ()

/-- Validator `validate_status` from `src/src/utils/validators.py`. -/
def validate_status (status : String) : Except String Unit :=
  if status == "In Progress" || status == "Under Review" || status == "Completed" || status == "Closed" then .ok ()
  else .error "Invalid status. Must be one of: In Progress, Under Review, Completed, Closed"

/-- Validator `validate_progress` from `src/src/utils/validators.py`; the
`isinstance(progress, int)` guard is carried by the `Int` type. -/
def validate_progress (progress : Int) : Except String Unit :=
  if progress < 0 || progress > 100 then .error "Progress must be between 0 and 100"
  else if progress % 10 != 0 then .error "Progress must be in steps of 10"
  else .ok ()

/-- Transition table of `Ticket.validate_status_transition`
(`src/src/models/ticket.py`): targets allowed from each status, with the
`.get(current_status, [])` default for unknown statuses. -/
def valid_transitions (current : String) : List String :=
  if current == "In Progress" then ["Under Review"]
  else if current == "Under Review" then ["In Progress", "Completed"]
  else if current == "Completed" then ["Closed"]
  else []

/-- Error message of a rejected transition (source text without the quote
characters). -/
def transitionErrorMsg (current new : String) : String :=
  "Invalid status transition from " ++ current ++ " to " ++ new

/-- Static method `Ticket.validate_status_transition` from
`src/src/models/ticket.py`. -/
def Ticket.validate_status_transition (current_status new_status : String) : Except String Unit :=
  if (valid_transitions current_status).contains new_status then .ok ()
  else .error (transitionErrorMsg current_status new_status)

/-- Static method `Ticket.validate_priority` from `src/src/models/ticket.py`
(the per-type whitelist form; routes call the validator above instead). -/
def Ticket.validate_priority (ticket_type priority : String) : Except String Unit :=
  if ticket_type == "Enhancement" && priority == "Top Urgent" then
    .error "Enhancement tickets cannot have Top Urgent priority"
  else
    let valid :=
      if ticket_type == "Issue" then ["Top Urgent", "High", "Medium", "Low"]
      else if ticket_type == "Enhancement" then ["High", "Medium", "Low"]
      else []
    if valid.contains priority then .ok ()
    else .error ("Invalid priority " ++ priority ++ " for ticket type " ++ ticket_type)

/-- Helper mapping a `ValueError` raised by a validator to the 400 response
produced by the `except ValueError` handler of each route. -/
def ofVE (r : Except String Unit) : Except ApiErr Unit :=
  match r with
  | .ok _ => .ok ()
  | .error m => .error (400, m)

/-- `get_current_user` from `src/src/utils/auth.py`: resolves the token
identity with `User.query.get(current_user_id)`.  Note it does not consult
`is_active`. -/
def get_current_user (db : DB) (uid : Nat) : Option User :=
  db.findUser uid

/-- Login handler from `src/src/routes/auth.py`; the password comparison
(`user.check_password`) is a hashing collaborator, passed in as
`password_ok`. -/
def login (db : DB) (email : String) (password_ok : Bool) : Except ApiErr User :=
  match db.users.find? (fun u => u.email == email) with
  | none => .error (401, "Invalid email or password")
  | some user =>
    if !password_ok then .error (401, "Invalid email or password")
    else if !user.is_active then .error (401, "Account is deactivated")
    else .ok user

/-- Response body of `GET /tickets/<id>`: the ticket with its comments and
files. -/
structure TicketView where
  ticket : Ticket
  comments : List Comment
  files : List DbFile
deriving DecidableEq, Repr

/-- `get_ticket` handler (`src/src/routes/tickets.py` lines 85-119): user
lookup, ticket lookup (404 when missing), then the Oldendorff visibility
check (403 when hidden). -/
def get_ticket (db : DB) (uid tid : Nat) : Except ApiErr TicketView :=
  match get_current_user db uid with
  | none => .error (404, "User not found")
  | some current_user =>
    match db.findTicket tid with
    | none => .error (404, "Ticket not found")
    | some ticket =>
      if current_user.organization == "Oldendorff" && ticket.creator_id != current_user.id then
        .error (403, "Access denied")
      else
        .ok { ticket := ticket
              comments := db.comments.filter (fun c => c.ticket_id == tid)
              files := db.files.filter (fun f => f.ticket_id == tid) }

/-- Change set of a `PUT /tickets/<id>` request: `some` marks a key present
in the JSON body.  For `timeline_date`, `some (some s)` is a truthy string
value and `some none` a falsy value (null or empty), which clears the
field. -/
structure TicketChanges where
  title : Option String := none
  description : Option String := none
  category_id : Option Nat := none
  ticket_type : Option String := none
  priority : Option String := none
  status : Option String := none
  progress : Option Int := none
  timeline_date : Option (Option String) := none
deriving DecidableEq, Repr

/-- Basic-field step of `update_ticket`: title assignment. -/
def upd_title (data : TicketChanges) (t : Ticket) : Ticket :=
  match data.title with
  | some s => { t with title := pyStrip s }
  | none => t

/-- Basic-field step of `update_ticket`: description assignment. -/
def upd_description (data : TicketChanges) (t : Ticket) : Ticket :=
  match data.description with
  | some s => { t with description := pyStrip s }
  | none => t

/-- Basic-field step of `update_ticket`: category assignment after the
exists-and-active check. -/
def upd_category (db : DB) (data : TicketChanges) (t : Ticket) : Except ApiErr Ticket :=
  match data.category_id with
  | none => .ok t
  | some cid =>
    match db.findCategory cid with
    | none => .error (400, "Invalid or inactive category")
    | some c =>
      if !c.is_active then .error (400, "Invalid or inactive category")
      else .ok { t with category_id := cid }

/-- Basic-field step of `update_ticket`: type change; validates the held or
incoming priority against the new type before assigning it. -/
def upd_type (data : TicketChanges) (t : Ticket) : Except ApiErr Ticket :=
  match data.ticket_type with
  | none => .ok t
  | some tt =>
    match ofVE (validate_ticket_type tt) with
    | .error e => .error e
    | .ok _ =>
      match ofVE (validate_priority (data.priority.getD t.priority) (some tt)) with
      | .error e => .error e
      | .ok _ => .ok { t with ticket_type := tt }

/-- Basic-field step of `update_ticket`: priority change, validated against
the ticket type as already updated by the type step. -/
def upd_priority (data : TicketChanges) (t : Ticket) : Except ApiErr Ticket :=
  match data.priority with
  | none => .ok t
  | some p =>
    match ofVE (validate_priority p (some t.ticket_type)) with
    | .error e => .error e
    | .ok _ => .ok { t with priority := p }

/-- The basic-fields block of `update_ticket` (lines 200-223), in source
order: title, description, category, type, priority. -/
def apply_basic_fields (db : DB) (data : TicketChanges) (t : Ticket) : Except ApiErr Ticket :=
  (upd_category db data (upd_description data (upd_title data t))).bind
    (fun t1 => (upd_type data t1).bind (fun t2 => upd_priority data t2))

/-- Workflow step of `update_ticket`: status change through
`validate_status` and the transition table. -/
def upd_status (data : TicketChanges) (t : Ticket) : Except ApiErr Ticket :=
  match data.status with
  | none => .ok t
  | some s =>
    match ofVE (validate_status s) with
    | .error e => .error e
    | .ok _ =>
      match Ticket.validate_status_transition t.status s with
      | .ok _ => .ok { t with status := s }
      | .error m => .error (400, m)

/-- Workflow step of `update_ticket`: progress change. -/
def upd_progress (data : TicketChanges) (t : Ticket) : Except ApiErr Ticket :=
  match data.progress with
  | none => .ok t
  | some p =>
    match ofVE (validate_progress p) with
    | .error e => .error e
    | .ok _ => .ok { t with progress := p }

/-- Workflow step of `update_ticket`: timeline date set or cleared; a truthy
value must parse as `YYYY-MM-DD`. -/
def upd_timeline (data : TicketChanges) (t : Ticket) : Except ApiErr Ticket :=
  match data.timeline_date with
  | none => .ok t
  | some none => .ok { t with timeline_date := none }
  | some (some raw) =>
    match strptime_date raw with
    | some d => .ok { t with timeline_date := some d }
    | none => .error (400, "Invalid date format. Use YYYY-MM-DD")

/-- The workflow-fields block of `update_ticket` (lines 226-251), in source
order: status, progress, timeline date.  The status-transition check reads
the status still held by the session object, which the basic block never
writes. -/
def apply_workflow_fields (data : TicketChanges) (t : Ticket) : Except ApiErr Ticket :=
  (upd_status data t).bind (fun t1 => (upd_progress data t1).bind (fun t2 => upd_timeline data t2))

/-- Pure core of the `update_ticket` handler (`src/src/routes/tickets.py`
lines 177-267): lookups, the combined access check, the basic block gated by
creator-or-BOSS, the workflow block gated by BOSS only, then the
`updated_at` stamp. -/
def update_ticket_core (db : DB) (uid tid : Nat) (data : TicketChanges) (now : DateTime) :
    Except ApiErr Ticket :=
  match get_current_user db uid with
  | none => .error (404, "User not found")
  | some current_user =>
    match db.findTicket tid with
    | none => .error (404, "Ticket not found")
    | some ticket =>
      let can_edit_basic := ticket.creator_id == current_user.id
      let can_edit_status := current_user.organization == "BOSS"
      if !can_edit_basic && !can_edit_status then .error (403, "Access denied")
      else
        ((if can_edit_basic || can_edit_status then apply_basic_fields db data ticket
          else .ok ticket).bind
          (fun t1 => (if can_edit_status then apply_workflow_fields data t1 else .ok t1).bind
            (fun t2 => .ok { t2 with updated_at := now })))

/-- The `update_ticket` handler with its single commit point: the store is
written only when the core succeeds; every error return precedes the commit
and the session rolls back. -/
def update_ticket (db : DB) (uid tid : Nat) (data : TicketChanges) (now : DateTime) :
    Except ApiErr Ticket × DB :=
  match update_ticket_core db uid tid data now with
  | .ok t => (.ok t, db.setTicket t)
  | .error e => (.error e, db)

/-- Names of required creation fields whose value is missing or falsy, in the
order checked by `validate_required_fields` in `create_ticket`. -/
def create_missing_fields (title description : String) (category_id : Nat)
    (ticket_type priority : String) : List String :=
  (if title == "" then ["title"] else []) ++
  (if description == "" then ["description"] else []) ++
  (if category_id == 0 then ["category_id"] else []) ++
  (if ticket_type == "" then ["ticket_type"] else []) ++
  (if priority == "" then ["priority"] else [])

/-- Primary key assigned to a freshly inserted ticket (autoincrement). -/
def DB.freshTicketId (db : DB) : Nat :=
  (db.tickets.map Ticket.id).foldl max 0 + 1

/-- Pure core of the `create_ticket` handler (`src/src/routes/tickets.py`
lines 121-175): required-field check, type and priority validation, then the
category exists-and-active check; a new ticket starts In Progress with
progress 0. -/
def create_ticket_core (db : DB) (uid : Nat) (title description : String)
    (category_id : Nat) (ticket_type priority : String) (now : DateTime) :
    Except ApiErr Ticket :=
  match get_current_user db uid with
  | none => .error (404, "User not found")
  | some current_user =>
    let missing := create_missing_fields title description category_id ticket_type priority
    if missing != [] then
      .error (400, "Missing required fields: " ++ String.intercalate ", " missing)
    else
      match ofVE (validate_ticket_type ticket_type) with
      | .error e => .error e
      | .ok _ =>
        match ofVE (validate_priority priority (some ticket_type)) with
        | .error e => .error e
        | .ok _ =>
          match db.findCategory category_id with
          | none => .error (400, "Invalid or inactive category")
          | some c =>
            if !c.is_active then .error (400, "Invalid or inactive category")
            else
              .ok { id := db.freshTicketId
                    title := pyStrip title
                    description := pyStrip description
                    category_id := category_id
                    ticket_type := ticket_type
                    priority := priority
                    status := "In Progress"
                    creator_id := current_user.id
                    timeline_date := none
                    progress := 0
                    created_at := now
                    updated_at := now }

/-- The `create_ticket` handler with its single commit point. -/
def create_ticket (db : DB) (uid : Nat) (title description : String)
    (category_id : Nat) (ticket_type priority : String) (now : DateTime) :
    Except ApiErr Ticket × DB :=
  match create_ticket_core db uid title description category_id ticket_type priority now with
  | .ok t => (.ok t, { db with tickets := db.tickets ++ [t] })
  | .error e => (.error e, db)

/-- Admin gate of the `admin_required` decorator (`src/src/utils/auth.py`):
token identity resolved with `User.query.get`, then a role check; the active
flag is not consulted. -/
def admin_gate (db : DB) (uid : Nat) : Except ApiErr User :=
  match db.findUser uid with
  | none => .error (403, "Admin access required")
  | some user =>
    if user.role != "admin" then .error (403, "Admin access required")
    else .ok user

/-- Change set of a `PUT /categories/<id>` request. -/
structure CategoryChanges where
  name : Option String := none
  description : Option String := none
  is_active : Option Bool := none
deriving DecidableEq, Repr

/-- Pure core of the `update_category` handler (`src/src/routes/categories.py`
lines 94-134): admin gate, lookup, optional name change with uniqueness
check, optional description change, and an unconditional `is_active`
assignment when the key is present. -/
def update_category_core (db : DB) (uid cid : Nat) (data : CategoryChanges) :
    Except ApiErr Category :=
  match admin_gate db uid with
  | .error e => .error e
  | .ok _ =>
    match db.findCategory cid with
    | none => .error (404, "Category not found")
    | some category =>
      let step1 : Except ApiErr Category :=
        match data.name with
        | none => .ok category
        | some n =>
          let new_name := pyStrip n
          match db.categories.find? (fun c => c.name == new_name) with
          | some existing =>
            if existing.id != category.id then .error (400, "Category with this name already exists")
            else .ok { category with name := new_name }
          | none => .ok { category with name := new_name }
      step1.bind (fun c1 =>
        let c2 :=
          match data.description with
          | none => c1
          | some dsc => { c1 with description := if pyStrip dsc == "" then none else some (pyStrip dsc) }
        let c3 :=
          match data.is_active with
          | none => c2
          | some b => { c2 with is_active := b }
        .ok c3)

/-- The `update_category` handler with its single commit point. -/
def update_category (db : DB) (uid cid : Nat) (data : CategoryChanges) :
    Except ApiErr Category × DB :=
  match update_category_core db uid cid data with
  | .ok c => (.ok c, db.setCategory c)
  | .error e => (.error e, db)

/-- The `deactivate_category` handler (`src/src/routes/categories.py` lines
136-164): admin gate, lookup, refusal while the category owns non-Closed
tickets, otherwise the soft delete. -/
def deactivate_category (db : DB) (uid cid : Nat) : Except ApiErr Unit × DB :=
  match admin_gate db uid with
  | .error e => (.error e, db)
  | .ok _ =>
    match db.findCategory cid with
    | none => (.error (404, "Category not found"), db)
    | some category =>
      if (db.tickets.filter (fun t => t.category_id == cid && t.status != "Closed")).length > 0 then
        (.error (400, "Cannot deactivate category with " ++
          toString (db.tickets.filter (fun t => t.category_id == cid && t.status != "Closed")).length ++
          " active tickets"), db)
      else
        (.ok (), db.setCategory { category with is_active := false })

/-- Primary key assigned to a freshly inserted comment (autoincrement). -/
def DB.freshCommentId (db : DB) : Nat :=
  (db.comments.map Comment.id).foldl max 0 + 1

/-- Pure core of the `add_comment` handler (`src/src/routes/comments.py`
lines 40-91), in source order: required-field and emptiness checks on the
content, ticket lookup, Oldendorff visibility check, then the new comment
and the parent `updated_at` stamp. -/
def add_comment_core (db : DB) (uid tid : Nat) (content : String) (now : DateTime) :
    Except ApiErr (Comment × Ticket) :=
  match get_current_user db uid with
  | none => .error (404, "User not found")
  | some current_user =>
    if content == "" then .error (400, "Missing required fields: content")
    else if pyStrip content == "" then .error (400, "Comment content cannot be empty")
    else
      match db.findTicket tid with
      | none => .error (404, "Ticket not found")
      | some ticket =>
        if current_user.organization == "Oldendorff" && ticket.creator_id != current_user.id then
          .error (403, "Access denied")
        else
          .ok ({ id := db.freshCommentId, ticket_id := tid, user_id := current_user.id
                 content := pyStrip content, created_at := now },
               { ticket with updated_at := now })

/-- The `add_comment` handler with its single commit point: the comment row
is inserted and the mutated parent ticket flushed together. -/
def add_comment (db : DB) (uid tid : Nat) (content : String) (now : DateTime) :
    Except ApiErr Comment × DB :=
  match add_comment_core db uid tid content now with
  | .ok (c, t) => (.ok c, { db.setTicket t with comments := db.comments ++ [c] })
  | .error e => (.error e, db)

/-- Pure core of the `update_comment` handler (`src/src/routes/comments.py`
lines 119-164): lookup, author-only check, content checks, then the new
content and the parent `updated_at` stamp (a missing parent row would make
`comment.ticket` blow up into the 500 handler). -/
def update_comment_core (db : DB) (uid cid : Nat) (content : String) (now : DateTime) :
    Except ApiErr (Comment × Ticket) :=
  match get_current_user db uid with
  | none => .error (404, "User not found")
  | some current_user =>
    match db.findComment cid with
    | none => .error (404, "Comment not found")
    | some comment =>
      if comment.user_id != current_user.id then
        .error (403, "You can only edit your own comments")
      else if content == "" then .error (400, "Missing required fields: content")
      else if pyStrip content == "" then .error (400, "Comment content cannot be empty")
      else
        match db.findTicket comment.ticket_id with
        | none => .error (500, "Failed to update comment")
        | some ticket =>
          .ok ({ comment with content := pyStrip content }, { ticket with updated_at := now })

/-- Write back a comment row by primary key. -/
def DB.setComment (db : DB) (c : Comment) : DB :=
  { db with comments := db.comments.map (fun x => if x.id == c.id then c else x) }

/-- The `update_comment` handler with its single commit point. -/
def update_comment (db : DB) (uid cid : Nat) (content : String) (now : DateTime) :
    Except ApiErr Comment × DB :=
  match update_comment_core db uid cid content now with
  | .ok (c, t) => (.ok c, (db.setTicket t).setComment c)
  | .error e => (.error e, db)

/-- Pure core of the `delete_comment` handler (`src/src/routes/comments.py`
lines 166-198): lookup, author-or-admin check, then the parent `updated_at`
stamp before the delete. -/
def delete_comment_core (db : DB) (uid cid : Nat) (now : DateTime) :
    Except ApiErr (Comment × Ticket) :=
  match get_current_user db uid with
  | none => .error (404, "User not found")
  | some current_user =>
    match db.findComment cid with
    | none => .error (404, "Comment not found")
    | some comment =>
      if comment.user_id != current_user.id && current_user.role != "admin" then
        .error (403, "You can only delete your own comments")
      else
        match db.findTicket comment.ticket_id with
        | none => .error (500, "Failed to delete comment")
        | some ticket =>
          .ok (comment, { ticket with updated_at := now })

/-- The `delete_comment` handler with its single commit point. -/
def delete_comment (db : DB) (uid cid : Nat) (now : DateTime) :
    Except ApiErr Unit × DB :=
  match delete_comment_core db uid cid now with
  | .ok (c, t) => (.ok (), (db.setTicket t).removeComment c.id)
  | .error e => (.error e, db)

/-- MIME category of a file for the stats breakdown:
`file.mime_type.split('/')[0] if file.mime_type else 'unknown'`. -/
def mimeCategory (f : DbFile) : String :=
  if f.mime_type == "" then "unknown"
  else ((splitOnChar f.mime_type '/').headD f.mime_type)

/-- Insertion-ordered counter bump, modelling the Python dict update
`mime_stats[k] = mime_stats.get(k, 0) + 1`. -/
def bumpCount (l : List (String × Nat)) (k : String) : List (String × Nat) :=
  match l with
  | [] => [(k, 1)]
  | (a, n) :: rest => if a == k then (a, n + 1) :: rest else (a, n) :: bumpCount rest k

/-- Response body of `GET /files/stats` (the float megabyte field is
presentation plumbing and not carried). -/
structure FileStats where
  total_files : Nat
  total_size_bytes : Nat
  files_by_type : List (String × Nat)
deriving DecidableEq, Repr

/-- The `get_file_stats` handler (`src/src/routes/files.py` lines 236-273):
the base query joins tickets and filters by creator for Oldendorff users,
and `total_files` and the MIME breakdown use it — but `total_size` is summed
by a fresh query over the whole `files` table, without the base filter
(line 256 of the source). -/
def get_file_stats (db : DB) (uid : Nat) : Except ApiErr FileStats :=
  match get_current_user db uid with
  | none => .error (404, "User not found")
  | some current_user =>
    let base :=
      if current_user.organization == "Oldendorff" then
        db.files.filter (fun f =>
          match db.findTicket f.ticket_id with
          | some t => t.creator_id == current_user.id
          | none => false)
      else db.files
    let total_files := base.length
    let total_size := db.files.foldl (fun acc f => acc + f.file_size) 0
    let mime_stats := base.foldl (fun acc f => bumpCount acc (mimeCategory f)) []
    .ok { total_files := total_files, total_size_bytes := total_size, files_by_type := mime_stats }

/-- One bucket of the monthly trends response. -/
structure TrendEntry where
  month : String
  created : Nat
  completed : Nat
deriving DecidableEq, Repr

/-- The `get_monthly_trends` helper (`src/src/routes/dashboard.py` lines
258-292) over an already visibility-filtered ticket list: for each of six
iterations the bucket start is `(now.replace(day=1) - timedelta(days=i*30))
.replace(day=1)` — note the 30-day hops and that the time of day of `now` is
kept — and the bucket end is the same point one calendar month later; the
list is reversed to oldest-first. -/
def get_monthly_trends (base : List Ticket) (now : DateTime) : List TrendEntry :=
  let trends := (List.range 6).map (fun i =>
    let start_date := (Date.mk now.date.y now.date.m 1).subDays (i * 30)
    let month_start : DateTime := { date := { start_date with d := 1 }, sec := now.sec }
    let next_month : DateTime :=
      if month_start.date.m < 12 then
        { month_start with date := { month_start.date with m := month_start.date.m + 1 } }
      else
        { month_start with date := { month_start.date with y := month_start.date.y + 1, m := 1 } }
    let created_count := (base.filter (fun t =>
      month_start.key ≤ t.created_at.key && t.created_at.key < next_month.key)).length
    let completed_count := (base.filter (fun t =>
      t.status == "Completed" && month_start.key ≤ t.updated_at.key && t.updated_at.key < next_month.key)).length
    { month := monthLabel month_start.date, created := created_count, completed := completed_count })
  trends.reverse

/-- Fixture timestamp used for pre-existing rows. -/
def dtEx : DateTime := ⟨⟨2026, 3, 10⟩, 0⟩

/-- Fixture timestamp used as the request time of the operations under
test. -/
def dtNow : DateTime := ⟨⟨2026, 3, 15⟩, 37230⟩

/-- Fixture: an active External-organization (Oldendorff) normal user. -/
def exExtUser : User := ⟨1, "Ava", "ava@oldendorff.com", "normal", "Oldendorff", true⟩

/-- Fixture: an active Internal-organization (BOSS) normal user. -/
def exBossUser : User := ⟨2, "Ben", "ben@bwesglobal.com", "normal", "BOSS", true⟩

/-- Fixture: a second active External user. -/
def exExtUser2 : User := ⟨3, "Cal", "cal@oldendorff.com", "normal", "Oldendorff", true⟩

/-- Fixture: a deactivated External user. -/
def exInactiveUser : User := ⟨4, "Dee", "dee@oldendorff.com", "normal", "Oldendorff", false⟩

/-- Fixture: an active BOSS admin. -/
def exAdmin : User := ⟨9, "Max", "max@bwesglobal.com", "admin", "BOSS", true⟩

/-- Fixture: the single active category. -/
def exCat : Category := ⟨1, "Safety", none, true⟩

/-- Fixture: open ticket created by the External user 1. -/
def exT1 : Ticket := ⟨1, "Pump issue", "Leaking pump", 1, "Issue", "High", "In Progress", 1, none, 0, dtEx, dtEx⟩

/-- Fixture: open ticket created by the BOSS user 2. -/
def exT2 : Ticket := ⟨2, "Other", "Different", 1, "Issue", "Low", "In Progress", 2, none, 0, dtEx, dtEx⟩

/-- Fixture: open ticket created by the deactivated user 4. -/
def exT3 : Ticket := ⟨3, "Mine", "By inactive", 1, "Issue", "Low", "In Progress", 4, none, 0, dtEx, dtEx⟩

/-- Fixture: a comment by user 1 on ticket 1. -/
def exC1 : Comment := ⟨1, 1, 1, "first", dtEx⟩

/-- Fixture: a file on ticket 1 (created by user 1), 100 bytes. -/
def exF1 : DbFile := ⟨1, 1, 100, "application/pdf", 1, dtEx⟩

/-- Fixture: a file on ticket 2 (created by user 2), 200 bytes. -/
def exF2 : DbFile := ⟨2, 2, 200, "image/png", 2, dtEx⟩

/-- Fixture store shared by the concrete checks. -/
def exDB : DB :=
  ⟨[exExtUser, exBossUser, exExtUser2, exInactiveUser, exAdmin], [exCat],
   [exT1, exT2, exT3], [exC1], [exF1, exF2]⟩

/-- The four status strings. -/
def allStatuses : List String := ["In Progress", "Under Review", "Completed", "Closed"]

/-- The four transitions admitted by the state machine. -/
def allowedTransitions : List (String × String) :=
  [("In Progress", "Under Review"), ("Under Review", "In Progress"),
   ("Under Review", "Completed"), ("Completed", "Closed")]

/-- Replacing, in a list, the row whose key the lookup found, by a row with
the same key, makes the lookup return the replacement.  This is the commit
step of every mutation, phrased for a generic key function. -/
theorem find?_replace {α : Type} (idf : α → Nat) (l : List α) (k : Nat) (t t' : α)
    (h : l.find? (fun x => idf x == k) = some t) (hid : idf t' = idf t) :
    (l.map fun x => if idf x == idf t' then t' else x).find? (fun x => idf x == k) = some t' := by
  have ht : idf t = k := by simpa using List.find?_some h
  induction l with
  | nil => simp at h
  | cons a as ih =>
    simp only [List.map_cons]
    by_cases ha : idf a = k
    · rw [List.find?_cons_of_pos _ (by simpa using ha)] at h
      injection h with h
      subst h
      rw [if_pos (by simp [hid])]
      exact List.find?_cons_of_pos _ (by simp [hid, ht])
    · rw [List.find?_cons_of_neg _ (by simpa using ha)] at h
      rw [if_neg (by simp only [hid, ht, beq_iff_eq]; exact ha)]
      rw [List.find?_cons_of_neg _ (by simpa using ha)]
      exact ih h

/-- The title step never touches the lifecycle, key or pairing fields. -/
theorem upd_title_fields (data : TicketChanges) (t : Ticket) :
    (upd_title data t).status = t.status ∧ (upd_title data t).progress = t.progress ∧
    (upd_title data t).timeline_date = t.timeline_date ∧ (upd_title data t).id = t.id ∧
    (upd_title data t).ticket_type = t.ticket_type ∧ (upd_title data t).priority = t.priority ∧
    (upd_title data t).creator_id = t.creator_id := by
  unfold upd_title; cases data.title <;> simp

theorem upd_description_fields (data : TicketChanges) (t : Ticket) :
    (upd_description data t).status = t.status ∧ (upd_description data t).progress = t.progress ∧
    (upd_description data t).timeline_date = t.timeline_date ∧ (upd_description data t).id = t.id ∧
    (upd_description data t).ticket_type = t.ticket_type ∧ (upd_description data t).priority = t.priority ∧
    (upd_description data t).creator_id = t.creator_id := by
  unfold upd_description; cases data.description <;> simp

theorem upd_category_fields (db : DB) (data : TicketChanges) (t t' : Ticket)
    (h : upd_category db data t = .ok t') :
    t'.status = t.status ∧ t'.progress = t.progress ∧ t'.timeline_date = t.timeline_date ∧
    t'.id = t.id ∧ t'.ticket_type = t.ticket_type ∧ t'.priority = t.priority ∧
    t'.creator_id = t.creator_id := by
  unfold upd_category at h
  split at h
  next => injection h with h; subst h; simp
  next cid =>
    split at h
    next => simp at h
    next c hc =>
      split at h
      next => simp at h
      next => injection h with h; subst h; simp

theorem upd_type_fields (data : TicketChanges) (t t' : Ticket)
    (h : upd_type data t = .ok t') :
    t'.status = t.status ∧ t'.progress = t.progress ∧ t'.timeline_date = t.timeline_date ∧
    t'.id = t.id ∧ t'.creator_id = t.creator_id := by
  unfold upd_type at h
  split at h
  next => injection h with h; subst h; simp
  next tt =>
    split at h
    next => simp at h
    next =>
      split at h
      next => simp at h
      next => injection h with h; subst h; simp

theorem upd_priority_fields (data : TicketChanges) (t t' : Ticket)
    (h : upd_priority data t = .ok t') :
    t'.status = t.status ∧ t'.progress = t.progress ∧ t'.timeline_date = t.timeline_date ∧
    t'.id = t.id ∧ t'.creator_id = t.creator_id := by
  unfold upd_priority at h
  split at h
  next => injection h with h; subst h; simp
  next p =>
    split at h
    next => simp at h
    next => injection h with h; subst h; simp

theorem apply_basic_fields_preserves (db : DB) (data : TicketChanges) (t t' : Ticket)
    (h : apply_basic_fields db data t = .ok t') :
    t'.status = t.status ∧ t'.progress = t.progress ∧ t'.timeline_date = t.timeline_date ∧
    t'.id = t.id ∧ t'.creator_id = t.creator_id := by
  unfold apply_basic_fields at h
  cases h1 : upd_category db data (upd_description data (upd_title data t)) with
  | error e => rw [h1] at h; simp [Except.bind] at h
  | ok t1 =>
    rw [h1] at h
    simp only [Except.bind] at h
    cases h2 : upd_type data t1 with
    | error e => rw [h2] at h; simp [Except.bind] at h
    | ok t2 =>
      rw [h2] at h
      simp only [Except.bind] at h
      obtain ⟨a1, a2, a3, a4, _, _, a7⟩ := upd_title_fields data t
      obtain ⟨b1, b2, b3, b4, _, _, b7⟩ := upd_description_fields data (upd_title data t)
      obtain ⟨c1, c2, c3, c4, _, _, c7⟩ := upd_category_fields db data _ t1 h1
      obtain ⟨d1, d2, d3, d4, d5⟩ := upd_type_fields data t1 t2 h2
      obtain ⟨e1, e2, e3, e4, e5⟩ := upd_priority_fields data t2 t' h
      refine ⟨?_, ?_, ?_, ?_, ?_⟩ <;> simp_all

/-- C3: a status change passes `Ticket.validate_status_transition` exactly
for the four admitted pairs; every other pair among the four statuses fails
with the transition error naming the pair. -/
theorem C3_status_transition_table (f t : String)
    (hf : f ∈ allStatuses) (ht : t ∈ allStatuses) :
    (Ticket.validate_status_transition f t = .ok () ↔ (f, t) ∈ allowedTransitions) ∧
    ((f, t) ∉ allowedTransitions →
      Ticket.validate_status_transition f t = .error (transitionErrorMsg f t)) := by
  fin_cases hf <;> fin_cases ht <;> exact ⟨by decide, by decide⟩

/-- Witness for C3 at the pair (Closed, In Progress). -/
theorem C3_status_transition_table_witness :
    (Ticket.validate_status_transition "Closed" "In Progress" = .ok () ↔
      ("Closed", "In Progress") ∈ allowedTransitions) ∧
    (("Closed", "In Progress") ∉ allowedTransitions →
      Ticket.validate_status_transition "Closed" "In Progress" =
        .error (transitionErrorMsg "Closed" "In Progress")) :=
  C3_status_transition_table "Closed" "In Progress" (by decide) (by decide)

/-- C9 evaluation: from the current time 2026-03-15 12:00:30 the trends
cover the month labels below — December appears twice and February is
absent, so the six buckets are neither distinct nor the six trailing
calendar months. -/
theorem C9_monthly_trends_skips_and_duplicates :
    (get_monthly_trends [] dtNow).map TrendEntry.month =
      ["2025-10", "2025-11", "2025-12", "2025-12", "2026-01", "2026-03"] ∧
    "2026-02" ∉ (get_monthly_trends [] dtNow).map TrendEntry.month ∧
    ¬ ((get_monthly_trends [] dtNow).map TrendEntry.month).Nodup :=
  ⟨by decide, by decide, by decide⟩

/-- C1 evaluation: for the External user 1, who owns one 100-byte file, the
file statistics count 1 file but report 300 total bytes, the sum over all
files including the 200-byte file of another creator; the actor-scoped sum
would be 100. -/
theorem C1_file_stats_total_size_unfiltered :
    get_file_stats exDB 1 =
      .ok { total_files := 1, total_size_bytes := 300, files_by_type := [("application", 1)] } ∧
    (exDB.files.filter (fun f =>
        match exDB.findTicket f.ticket_id with
        | some t => t.creator_id == 1
        | none => false)).foldl (fun acc f => acc + f.file_size) 0 = 100 :=
  ⟨by decide, by decide⟩

/-- C2 counterexample: the External creator of ticket 1 asks to set its
status to Completed; the update succeeds with the status unchanged (only the
timestamp moves) instead of failing with AccessDenied. -/
theorem C2_counterexample_workflow_silently_ignored :
    exExtUser.organization ≠ "BOSS" ∧ exT1.creator_id = exExtUser.id ∧
    (update_ticket exDB 1 1 { status := some "Completed" } dtNow).1 =
      .ok { exT1 with updated_at := dtNow } ∧
    (update_ticket exDB 1 1 { status := some "Completed" } dtNow).1 ≠
      .error (403, "Access denied") ∧
    ({ exT1 with updated_at := dtNow } : Ticket).status = exT1.status :=
  ⟨by decide, by decide, by decide, by decide, by decide⟩

/-- C2 amended: for an actor outside the BOSS organization, an update that
is not by the creator fails with AccessDenied, and an update by the creator
succeeds with every workflow field (status, progress, timeline date) of the
result identical to the stored ticket: the workflow part of the change set
is silently dropped, not rejected. -/
theorem C2_workflow_fields_ignored_for_external
    (db : DB) (uid tid : Nat) (data : TicketChanges) (now : DateTime)
    (u : User) (t : Ticket)
    (hu : get_current_user db uid = some u) (horg : u.organization ≠ "BOSS")
    (ht : db.findTicket tid = some t) :
    (t.creator_id ≠ u.id →
      (update_ticket db uid tid data now).1 = .error (403, "Access denied")) ∧
    (∀ t', (update_ticket db uid tid data now).1 = .ok t' →
      t'.status = t.status ∧ t'.progress = t.progress ∧ t'.timeline_date = t.timeline_date) := by
  have hb : (u.organization == "BOSS") = false := by simpa using horg
  constructor
  · intro hne
    have hc : (t.creator_id == u.id) = false := by simpa using hne
    unfold update_ticket update_ticket_core
    rw [hu, ht]
    simp [hb, hc]
  · intro t' h
    unfold update_ticket update_ticket_core at h
    rw [hu, ht] at h
    by_cases hc : t.creator_id = u.id
    · have hc' : (t.creator_id == u.id) = true := by simpa using hc
      simp only [hb, hc', Bool.not_false, Bool.not_true, Bool.and_false, Bool.false_and,
        Bool.or_false, if_false, if_true, Bool.false_or, Bool.true_or] at h
      cases hab : apply_basic_fields db data t with
      | error e => rw [hab] at h; simp [Except.bind] at h
      | ok t1 =>
        rw [hab] at h
        simp only [Except.bind] at h
        obtain ⟨p1, p2, p3, _, _⟩ := apply_basic_fields_preserves db data t t1 hab
        simp at h
        subst h
        simp [p1, p2, p3]
    · have hc' : (t.creator_id == u.id) = false := by simpa using hc
      simp [hb, hc'] at h

/-- Witness for the amended C2 at the concrete store: the External creator
updates ticket 1 with a status change and every workflow field survives
unchanged. -/
theorem C2_workflow_fields_ignored_for_external_witness :
    ({ exT1 with updated_at := dtNow } : Ticket).status = exT1.status ∧
    ({ exT1 with updated_at := dtNow } : Ticket).progress = exT1.progress ∧
    ({ exT1 with updated_at := dtNow } : Ticket).timeline_date = exT1.timeline_date :=
  (C2_workflow_fields_ignored_for_external exDB 1 1 { status := some "Completed" } dtNow
    exExtUser exT1 (by decide) (by decide) (by decide)).2
    { exT1 with updated_at := dtNow } (by decide)

/-- C4 counterexample: for the External user 1, the hidden ticket 2 answers
403 Access denied while the nonexistent id 99 answers 404 Ticket not found;
the two outcomes are distinguishable, so a hidden ticket does not read like
a missing one. -/
theorem C4_counterexample_distinguishable_outcomes :
    get_ticket exDB 1 2 = .error (403, "Access denied") ∧
    get_ticket exDB 1 99 = .error (404, "Ticket not found") ∧
    get_ticket exDB 1 2 ≠ get_ticket exDB 1 99 :=
  ⟨by decide, by decide, by decide⟩

/-- C4 amended: for an External (Oldendorff) actor, a stored ticket of
another creator answers exactly 403 Access denied and a missing id exactly
404 Ticket not found — two distinct outcomes. -/
theorem C4_hidden_vs_missing (db : DB) (uid tid : Nat) (u : User)
    (hu : get_current_user db uid = some u) (horg : u.organization = "Oldendorff") :
    (∀ t, db.findTicket tid = some t → t.creator_id ≠ u.id →
      get_ticket db uid tid = .error (403, "Access denied")) ∧
    (db.findTicket tid = none → get_ticket db uid tid = .error (404, "Ticket not found")) := by
  constructor
  · intro t ht hne
    unfold get_ticket
    rw [hu, ht]
    have h1 : (u.organization == "Oldendorff") = true := by simpa using horg
    have h2 : (t.creator_id != u.id) = true := by simpa using hne
    simp [h1, h2]
  · intro hnone
    unfold get_ticket
    rw [hu, hnone]

/-- Witness for the amended C4 at the concrete store. -/
theorem C4_hidden_vs_missing_witness :
    get_ticket exDB 1 2 = .error (403, "Access denied") :=
  (C4_hidden_vs_missing exDB 1 2 exExtUser (by decide) (by decide)).1 exT2 (by decide) (by decide)

/-- C7 counterexample: category 1 owns a non-Closed ticket, yet the generic
category update by an admin sets its active flag to false and succeeds. -/
theorem C7_counterexample_update_category_bypasses_guard :
    (exDB.tickets.filter (fun t => t.category_id == 1 && t.status != "Closed")).length > 0 ∧
    (update_category exDB 9 1 { is_active := some false }).1 =
      .ok { exCat with is_active := false } ∧
    (update_category exDB 9 1 { is_active := some false }).2.findCategory 1 =
      some { exCat with is_active := false } :=
  ⟨by decide, by decide, by decide⟩

/-- C7 amended: the dedicated deactivate operation refuses, leaving the
store untouched, while the category owns at least one non-Closed ticket,
and deactivates the category when it owns none. -/
theorem C7_deactivate_category_guard (db : DB) (uid cid : Nat) (u : User) (c : Category)
    (hadmin : admin_gate db uid = .ok u) (hc : db.findCategory cid = some c) :
    ((db.tickets.filter (fun t => t.category_id == cid && t.status != "Closed")).length > 0 →
      (deactivate_category db uid cid).1 =
        .error (400, "Cannot deactivate category with " ++
          toString (db.tickets.filter (fun t => t.category_id == cid && t.status != "Closed")).length ++
          " active tickets") ∧
      (deactivate_category db uid cid).2 = db) ∧
    ((db.tickets.filter (fun t => t.category_id == cid && t.status != "Closed")).length = 0 →
      (deactivate_category db uid cid).1 = .ok () ∧
      (deactivate_category db uid cid).2.findCategory cid =
        some { c with is_active := false }) := by
  unfold deactivate_category
  rw [hadmin, hc]
  dsimp only
  constructor
  · intro hpos
    rw [if_pos hpos]
    exact ⟨rfl, rfl⟩
  · intro hzero
    rw [if_neg (by omega)]
    refine ⟨rfl, ?_⟩
    have hc2 : db.categories.find? (fun x => x.id == cid) = some c := hc
    unfold DB.setCategory DB.findCategory
    dsimp only
    exact find?_replace Category.id db.categories cid c { c with is_active := false } hc2 rfl

/-- Witness for the amended C7: deactivating category 1, which owns three
open tickets, fails and leaves the store unchanged. -/
theorem C7_deactivate_category_guard_witness :
    (deactivate_category exDB 9 1).1 =
      .error (400, "Cannot deactivate category with " ++
        toString (exDB.tickets.filter (fun t => t.category_id == 1 && t.status != "Closed")).length ++
        " active tickets") ∧
    (deactivate_category exDB 9 1).2 = exDB :=
  (C7_deactivate_category_guard exDB 9 1 exAdmin exCat (by decide) (by decide)).1 (by decide)

/-- C8 counterexample: user 4 is deactivated, yet the actor resolver returns
the account and a read operation (fetching their own ticket 3) succeeds
instead of treating the actor as unauthenticated. -/
theorem C8_counterexample_inactive_actor_served :
    exInactiveUser.is_active = false ∧
    get_current_user exDB 4 = some exInactiveUser ∧
    get_ticket exDB 4 3 = .ok { ticket := exT3, comments := [], files := [] } :=
  ⟨rfl, by decide, by decide⟩

/-- C8 amended: the active flag is enforced only by the login handler; once
a request carries a resolvable identity, operations proceed without
consulting `is_active` (stated for the single-ticket read, whose result
depends only on the lookup and visibility check). -/
theorem C8_active_checked_only_at_login (db : DB) (email : String) (password_ok : Bool)
    (uid tid : Nat) (u v : User) (t : Ticket)
    (hfind : db.users.find? (fun x => x.email == email) = some u)
    (hpw : password_ok = true) (hinact : u.is_active = false)
    (hv : db.findUser uid = some v) (ht : db.findTicket tid = some t)
    (hcreator : t.creator_id = v.id) :
    login db email password_ok = .error (401, "Account is deactivated") ∧
    get_ticket db uid tid =
      .ok { ticket := t
            comments := db.comments.filter (fun c => c.ticket_id == tid)
            files := db.files.filter (fun f => f.ticket_id == tid) } := by
  constructor
  · unfold login
    rw [hfind, hpw]
    simp [hinact]
  · unfold get_ticket get_current_user
    rw [hv, ht]
    have h2 : (t.creator_id != v.id) = false := by simp [hcreator]
    simp [h2]

/-- Witness for the amended C8: the deactivated user 4 is refused at login
but served by the ticket read. -/
theorem C8_active_checked_only_at_login_witness :
    login exDB "dee@oldendorff.com" true = .error (401, "Account is deactivated") ∧
    get_ticket exDB 4 3 =
      .ok { ticket := exT3
            comments := exDB.comments.filter (fun c => c.ticket_id == 3)
            files := exDB.files.filter (fun f => f.ticket_id == 3) } :=
  C8_active_checked_only_at_login exDB "dee@oldendorff.com" true 4 3 exInactiveUser
    exInactiveUser exT3 (by decide) rfl rfl (by decide) (by decide) (by decide)

/-- C6: when any step of a ticket update fails, the store is unchanged —
the handler commits only after every check has passed, so there is no
partial application of the change set. -/
theorem C6_update_all_or_nothing (db : DB) (uid tid : Nat) (data : TicketChanges)
    (now : DateTime) (e : ApiErr)
    (h : (update_ticket db uid tid data now).1 = .error e) :
    (update_ticket db uid tid data now).2 = db := by
  unfold update_ticket at h ⊢
  cases hcore : update_ticket_core db uid tid data now with
  | ok t => rw [hcore] at h; simp at h
  | error e2 => rfl

/-- Witness for C6: a BOSS user sends a change set whose title part is valid
but whose status transition is illegal; the update fails and the store is
exactly the original. -/
theorem C6_update_all_or_nothing_witness :
    (update_ticket exDB 2 1 { title := some "New", status := some "Closed" } dtNow).2 = exDB :=
  C6_update_all_or_nothing exDB 2 1 { title := some "New", status := some "Closed" } dtNow
    (400, transitionErrorMsg "In Progress" "Closed") (by decide)

/-- The basic-fields block rejects a change set whose resulting pair of type
and priority is Enhancement with Top Urgent, with the InvalidPriority
message, whenever the optional category change passes its check. -/
theorem apply_basic_fields_rejects_top_urgent_enhancement
    (db : DB) (data : TicketChanges) (t : Ticket)
    (hcat : ∀ cid, data.category_id = some cid →
      ∃ c, db.findCategory cid = some c ∧ c.is_active = true)
    (htouch : data.ticket_type.isSome ∨ data.priority.isSome)
    (htype : data.ticket_type.getD t.ticket_type = "Enhancement")
    (hprio : data.priority.getD t.priority = "Top Urgent") :
    apply_basic_fields db data t =
      .error (400, "Enhancement tickets cannot have Top Urgent priority") := by
  have e1 : ofVE (validate_ticket_type "Enhancement") = .ok () := by decide
  have e2 : ofVE (validate_priority "Top Urgent" (some "Enhancement")) =
      .error (400, "Enhancement tickets cannot have Top Urgent priority") := by decide
  obtain ⟨_, _, _, _, a5, a6, _⟩ := upd_title_fields data t
  obtain ⟨_, _, _, _, b5, b6, _⟩ := upd_description_fields data (upd_title data t)
  have hbc : ∃ t1, upd_category db data (upd_description data (upd_title data t)) = .ok t1 ∧
      t1.ticket_type = t.ticket_type ∧ t1.priority = t.priority := by
    cases hcid : data.category_id with
    | none =>
      refine ⟨upd_description data (upd_title data t), ?_, by rw [b5, a5], by rw [b6, a6]⟩
      unfold upd_category
      rw [hcid]
    | some cid =>
      obtain ⟨c, hc, hca⟩ := hcat cid hcid
      refine ⟨{ upd_description data (upd_title data t) with category_id := cid }, ?_, ?_, ?_⟩
      · unfold upd_category
        rw [hcid]
        dsimp only
        rw [hc]
        simp [hca]
      · simp [b5, a5]
      · simp [b6, a6]
  obtain ⟨t1, h1, htt, hpp⟩ := hbc
  unfold apply_basic_fields
  rw [h1]
  simp only [Except.bind]
  cases hdt : data.ticket_type with
  | some tt =>
    have htt2 : tt = "Enhancement" := by simpa [hdt] using htype
    subst htt2
    have hgp : data.priority.getD t1.priority = "Top Urgent" := by
      cases hdp : data.priority with
      | some p => simpa [hdp] using hprio
      | none =>
        rw [hpp]
        simpa [hdp] using hprio
    unfold upd_type
    rw [hdt]
    dsimp only
    rw [e1]
    dsimp only
    rw [hgp, e2]
  | none =>
    have htt2 : t.ticket_type = "Enhancement" := by simpa [hdt] using htype
    have hps : ∃ p, data.priority = some p ∧ p = "Top Urgent" := by
      rcases htouch with h | h
      · rw [hdt] at h
        simp at h
      · cases hdp : data.priority with
        | none => rw [hdp] at h; simp at h
        | some p => exact ⟨p, rfl, by simpa [hdp] using hprio⟩
    obtain ⟨p, hdp, rfl⟩ := hps
    unfold upd_type
    rw [hdt]
    simp only [Except.bind]
    unfold upd_priority
    rw [hdp]
    dsimp only
    rw [htt, htt2, e2]

/-- C5: for an update touching the type or priority of a stored ticket,
with the actor, ticket, access and (optional) category checks passing,
whenever the resulting pair of type and priority — the incoming value where
the change set has one, the stored value where it is held — is Enhancement
with Top Urgent, the update fails with the InvalidPriority message and the
store is unchanged; and a creation with type Enhancement and priority
Top Urgent fails the same way before the category is even considered. -/
theorem C5_resulting_pair_validated :
    (∀ (db : DB) (uid tid : Nat) (data : TicketChanges) (now : DateTime) (u : User) (t : Ticket),
      get_current_user db uid = some u → db.findTicket tid = some t →
      (t.creator_id = u.id ∨ u.organization = "BOSS") →
      (∀ cid, data.category_id = some cid →
        ∃ c, db.findCategory cid = some c ∧ c.is_active = true) →
      (data.ticket_type.isSome ∨ data.priority.isSome) →
      data.ticket_type.getD t.ticket_type = "Enhancement" →
      data.priority.getD t.priority = "Top Urgent" →
      update_ticket db uid tid data now =
        (.error (400, "Enhancement tickets cannot have Top Urgent priority"), db)) ∧
    (∀ (db : DB) (uid : Nat) (title description : String) (category_id : Nat) (now : DateTime)
      (u : User),
      get_current_user db uid = some u →
      title ≠ "" → description ≠ "" → category_id ≠ 0 →
      create_ticket db uid title description category_id "Enhancement" "Top Urgent" now =
        (.error (400, "Enhancement tickets cannot have Top Urgent priority"), db)) := by
  constructor
  · intro db uid tid data now u t hu ht hacc hcat htouch htype hprio
    have habf := apply_basic_fields_rejects_top_urgent_enhancement db data t hcat htouch htype hprio
    have hg1 : (!(t.creator_id == u.id) && !(u.organization == "BOSS")) = false := by
      rcases hacc with h | h <;> simp [h]
    have hg2 : (t.creator_id == u.id || u.organization == "BOSS") = true := by
      rcases hacc with h | h <;> simp [h]
    unfold update_ticket update_ticket_core
    rw [hu, ht]
    simp [hg1, hg2, habf, Except.bind]
  · intro db uid title description category_id now u hu h1 h2 h3
    have e1 : ofVE (validate_ticket_type "Enhancement") = .ok () := by decide
    have e2 : ofVE (validate_priority "Top Urgent" (some "Enhancement")) =
        .error (400, "Enhancement tickets cannot have Top Urgent priority") := by decide
    have hmiss : create_missing_fields title description category_id "Enhancement" "Top Urgent" = [] := by
      unfold create_missing_fields
      simp [h1, h2, h3]
    unfold create_ticket create_ticket_core
    rw [hu]
    simp [hmiss, e1, e2]

/-- Witness for C5: both parts applied at the concrete store — the External
creator turns the Issue ticket 1 into an Enhancement while asking for
Top Urgent, and also tries to create such a ticket directly; both fail with
the InvalidPriority message and leave the store unchanged. -/
theorem C5_resulting_pair_validated_witness :
    update_ticket exDB 1 1 { ticket_type := some "Enhancement", priority := some "Top Urgent" } dtNow =
      (.error (400, "Enhancement tickets cannot have Top Urgent priority"), exDB) ∧
    create_ticket exDB 1 "T" "D" 1 "Enhancement" "Top Urgent" dtNow =
      (.error (400, "Enhancement tickets cannot have Top Urgent priority"), exDB) :=
  ⟨C5_resulting_pair_validated.1 exDB 1 1
      { ticket_type := some "Enhancement", priority := some "Top Urgent" } dtNow exExtUser exT1
      (by decide) (by decide) (Or.inl (by decide))
      (by intro cid hcid; simp at hcid) (Or.inl (by decide)) (by decide) (by decide),
   C5_resulting_pair_validated.2 exDB 1 "T" "D" 1 dtNow exExtUser
      (by decide) (by decide) (by decide) (by decide)⟩

/-- A successful comment insertion found the parent ticket and stamped its
`updated_at` with the request time. -/
theorem add_comment_core_ok (db : DB) (uid tid : Nat) (content : String) (now : DateTime)
    (c : Comment) (t0 : Ticket)
    (h : add_comment_core db uid tid content now = .ok (c, t0)) :
    ∃ ticket, db.findTicket tid = some ticket ∧ t0 = { ticket with updated_at := now } := by
  unfold add_comment_core at h
  cases hcu : get_current_user db uid with
  | none => rw [hcu] at h; simp at h
  | some cu =>
    rw [hcu] at h
    dsimp only at h
    by_cases h1 : (content == "") = true
    · rw [if_pos h1] at h; simp at h
    · rw [if_neg h1] at h
      by_cases h2 : (pyStrip content == "") = true
      · rw [if_pos h2] at h; simp at h
      · rw [if_neg h2] at h
        cases htk : db.findTicket tid with
        | none => rw [htk] at h; simp at h
        | some ticket =>
          rw [htk] at h
          dsimp only at h
          by_cases h3 : (cu.organization == "Oldendorff" && ticket.creator_id != cu.id) = true
          · rw [if_pos h3] at h; simp at h
          · rw [if_neg h3] at h
            simp only [Except.ok.injEq, Prod.mk.injEq] at h
            exact ⟨ticket, rfl, h.2.symm⟩

/-- A successful comment edit found the comment, found its parent ticket and
stamped the parent with the request time. -/
theorem update_comment_core_ok (db : DB) (uid cid : Nat) (content : String) (now : DateTime)
    (c' : Comment) (t0 : Ticket)
    (h : update_comment_core db uid cid content now = .ok (c', t0)) :
    ∃ comment ticket, db.findComment cid = some comment ∧
      db.findTicket comment.ticket_id = some ticket ∧
      t0 = { ticket with updated_at := now } := by
  unfold update_comment_core at h
  cases hcu : get_current_user db uid with
  | none => rw [hcu] at h; simp at h
  | some cu =>
    rw [hcu] at h
    dsimp only at h
    cases hcm : db.findComment cid with
    | none => rw [hcm] at h; simp at h
    | some comment =>
      rw [hcm] at h
      dsimp only at h
      by_cases h1 : (comment.user_id != cu.id) = true
      · rw [if_pos h1] at h; simp at h
      · rw [if_neg h1] at h
        by_cases h2 : (content == "") = true
        · rw [if_pos h2] at h; simp at h
        · rw [if_neg h2] at h
          by_cases h3 : (pyStrip content == "") = true
          · rw [if_pos h3] at h; simp at h
          · rw [if_neg h3] at h
            cases htk : db.findTicket comment.ticket_id with
            | none => rw [htk] at h; simp at h
            | some ticket =>
              rw [htk] at h
              simp only [Except.ok.injEq, Prod.mk.injEq] at h
              exact ⟨comment, ticket, rfl, htk, h.2.symm⟩

/-- A successful comment deletion found the comment, found its parent ticket
and stamped the parent with the request time before removing the row. -/
theorem delete_comment_core_ok (db : DB) (uid cid : Nat) (now : DateTime)
    (c0 : Comment) (t0 : Ticket)
    (h : delete_comment_core db uid cid now = .ok (c0, t0)) :
    ∃ ticket, db.findComment cid = some c0 ∧
      db.findTicket c0.ticket_id = some ticket ∧
      t0 = { ticket with updated_at := now } := by
  unfold delete_comment_core at h
  cases hcu : get_current_user db uid with
  | none => rw [hcu] at h; simp at h
  | some cu =>
    rw [hcu] at h
    dsimp only at h
    cases hcm : db.findComment cid with
    | none => rw [hcm] at h; simp at h
    | some comment =>
      rw [hcm] at h
      dsimp only at h
      by_cases h1 : (comment.user_id != cu.id && cu.role != "admin") = true
      · rw [if_pos h1] at h; simp at h
      · rw [if_neg h1] at h
        cases htk : db.findTicket comment.ticket_id with
        | none => rw [htk] at h; simp at h
        | some ticket =>
          rw [htk] at h
          simp only [Except.ok.injEq, Prod.mk.injEq] at h
          obtain ⟨h1, h2⟩ := h
          rw [h1] at htk
          exact ⟨ticket, congrArg some h1, htk, h2.symm⟩

/-- C10: each successful comment mutation — add, edit, delete — leaves the
parent ticket present in the resulting store with its `updated_at` equal to
the request time. -/
theorem C10_comment_ops_touch_parent_updated_at :
    (∀ (db : DB) (uid tid : Nat) (content : String) (now : DateTime) (c : Comment) (db' : DB),
      add_comment db uid tid content now = (.ok c, db') →
      ∃ t', db'.findTicket tid = some t' ∧ t'.updated_at = now) ∧
    (∀ (db : DB) (uid cid : Nat) (content : String) (now : DateTime) (c' : Comment) (db' : DB)
      (c0 : Comment), db.findComment cid = some c0 →
      update_comment db uid cid content now = (.ok c', db') →
      ∃ t', db'.findTicket c0.ticket_id = some t' ∧ t'.updated_at = now) ∧
    (∀ (db : DB) (uid cid : Nat) (now : DateTime) (db' : DB) (c0 : Comment),
      db.findComment cid = some c0 →
      delete_comment db uid cid now = (.ok (), db') →
      ∃ t', db'.findTicket c0.ticket_id = some t' ∧ t'.updated_at = now) := by
  refine ⟨?_, ?_, ?_⟩
  · intro db uid tid content now c db' h
    unfold add_comment at h
    cases hcore : add_comment_core db uid tid content now with
    | error e => rw [hcore] at h; simp at h
    | ok pr =>
      obtain ⟨cm, t0⟩ := pr
      rw [hcore] at h
      obtain ⟨ticket, htk, ht0⟩ := add_comment_core_ok db uid tid content now cm t0 hcore
      dsimp only at h
      simp only [Prod.mk.injEq] at h
      obtain ⟨-, hdb⟩ := h
      subst hdb
      refine ⟨t0, ?_, by rw [ht0]⟩
      show (DB.setTicket db t0).tickets.find? (fun x => x.id == tid) = some t0
      unfold DB.setTicket
      dsimp only
      exact find?_replace Ticket.id db.tickets tid ticket t0 htk (by rw [ht0])
  · intro db uid cid content now c' db' c0 hc0 h
    unfold update_comment at h
    cases hcore : update_comment_core db uid cid content now with
    | error e => rw [hcore] at h; simp at h
    | ok pr =>
      obtain ⟨cm, t0⟩ := pr
      rw [hcore] at h
      obtain ⟨comment, ticket, hcm, htk, ht0⟩ :=
        update_comment_core_ok db uid cid content now cm t0 hcore
      have hceq : comment = c0 := by
        rw [hc0] at hcm
        injection hcm with hv
        exact hv.symm
      rw [hceq] at htk
      dsimp only at h
      simp only [Prod.mk.injEq] at h
      obtain ⟨-, hdb⟩ := h
      subst hdb
      refine ⟨t0, ?_, by rw [ht0]⟩
      show ((DB.setTicket db t0).setComment cm).tickets.find? (fun x => x.id == c0.ticket_id) = some t0
      unfold DB.setComment DB.setTicket
      dsimp only
      exact find?_replace Ticket.id db.tickets c0.ticket_id ticket t0 htk (by rw [ht0])
  · intro db uid cid now db' c0 hc0 h
    unfold delete_comment at h
    cases hcore : delete_comment_core db uid cid now with
    | error e => rw [hcore] at h; simp at h
    | ok pr =>
      obtain ⟨cm, t0⟩ := pr
      rw [hcore] at h
      obtain ⟨ticket, hcm, htk, ht0⟩ := delete_comment_core_ok db uid cid now cm t0 hcore
      have hceq : cm = c0 := by
        rw [hc0] at hcm
        injection hcm with hv
        exact hv.symm
      rw [hceq] at htk
      dsimp only at h
      simp only [Prod.mk.injEq] at h
      obtain ⟨-, hdb⟩ := h
      subst hdb
      rw [hceq]
      refine ⟨t0, ?_, by rw [ht0]⟩
      show ((DB.setTicket db t0).removeComment c0.id).tickets.find? (fun x => x.id == c0.ticket_id) = some t0
      unfold DB.removeComment DB.setTicket
      dsimp only
      exact find?_replace Ticket.id db.tickets c0.ticket_id ticket t0 htk (by rw [ht0])

/-- Witness for C10 at the concrete store: adding, editing and deleting a
comment on ticket 1 each leave its `updated_at` at the request time. -/
theorem C10_comment_ops_touch_parent_updated_at_witness :
    (∃ t', ((add_comment exDB 1 1 "hello" dtNow).2.findTicket 1) = some t' ∧ t'.updated_at = dtNow) ∧
    (∃ t', ((update_comment exDB 1 1 "edit" dtNow).2.findTicket 1) = some t' ∧ t'.updated_at = dtNow) ∧
    (∃ t', ((delete_comment exDB 1 1 dtNow).2.findTicket 1) = some t' ∧ t'.updated_at = dtNow) :=
  ⟨C10_comment_ops_touch_parent_updated_at.1 exDB 1 1 "hello" dtNow
      { id := 2, ticket_id := 1, user_id := 1, content := "hello", created_at := dtNow }
      (add_comment exDB 1 1 "hello" dtNow).2 (by decide),
   C10_comment_ops_touch_parent_updated_at.2.1 exDB 1 1 "edit" dtNow
      { id := 1, ticket_id := 1, user_id := 1, content := "edit", created_at := dtEx }
      (update_comment exDB 1 1 "edit" dtNow).2 exC1 (by decide) (by decide),
   C10_comment_ops_touch_parent_updated_at.2.2 exDB 1 1 dtNow
      (delete_comment exDB 1 1 dtNow).2 exC1 (by decide) (by decide)⟩
